import Mathlib

/-!
Shallow embedding of the kalisystem-interface application core: the domain
model (src/unnamed/part_000), the in-memory application state store and its
mutation operations (src/src/contexts/AppContext.tsx), and the remote sync
adapter's re-entrancy guard and delete operations (src/unnamed/part_001).

Conventions of the embedding:
  - JS `Date` timestamps are modelled as `Nat` values passed in explicitly
    (`now`); `nanoid()` is modelled as an explicitly passed fresh id string.
  - Optional / possibly-null TS fields become `Option`; `undefined` and
    `null` are identified (the operations under study never distinguish
    them: every comparison site only ever sees values produced the same way).
  - JS numbers used as quantities/prices are modelled as `Int`.
  - Each mutation is a pure function `AppState → ... → AppState`; React's
    `setX(prev => ...)` updater becomes a field update on the state record.
-/

namespace Kali

/-- Domain model: `Item` (src/unnamed/part_000). -/
structure Item where
  id : String
  name : String
  khmerName : Option String := none
  supplier : String
  measureUnit : Option String := none
  unitPrice : Option Int := none
  lastOrdered : Option String := none
  orderCount : Option Nat := none
  lastHeld : Option String := none
deriving DecidableEq, Repr

/-- Domain model: the closed payment-method union (src/unnamed/part_000). -/
inductive PaymentMethod where
  | cashOnDelivery
  | aba
  | trueMoney
  | bank
deriving DecidableEq, Repr

/-- Domain model: `Supplier` (src/unnamed/part_000). -/
structure Supplier where
  id : String
  name : String
  contact : Option String := none
  telegramId : Option String := none
  defaultPaymentMethod : Option PaymentMethod := none
deriving DecidableEq, Repr

/-- Domain model: `OrderItem`, a line of the active cart
(src/unnamed/part_000). -/
structure OrderItem where
  item : Item
  quantity : Int
  storeTag : Option String := none
  isNewItem : Option Bool := none
deriving DecidableEq, Repr

/-- Domain model: `PendingOrderItem` (src/unnamed/part_000): a cart line
without the store tag. -/
structure PendingOrderItem where
  item : Item
  quantity : Int
  isNewItem : Option Bool := none
deriving DecidableEq, Repr

/-- Domain model: `PendingOrder` (src/unnamed/part_000). `status` is an
open string union, hence `Option String` here. -/
structure PendingOrder where
  id : String
  supplier : String
  items : List PendingOrderItem
  status : Option String := none
  storeTag : Option String := none
  paymentMethod : Option PaymentMethod := none
  contactPerson : Option String := none
  notes : Option String := none
  invoiceUrl : Option String := none
  amount : Option Int := none
  isReceived : Option Bool := none
  isPaid : Option Bool := none
  completedAt : Option Nat := none
  createdAt : Nat
  updatedAt : Option Nat := none
deriving DecidableEq, Repr

/-- Domain model: `CompletedOrder` (src/unnamed/part_000). At runtime
`completeOrder` stores the cart lines (which carry their store tags) in the
`items` field unchanged, so the field is modelled as `List OrderItem`. -/
structure CompletedOrder where
  id : String
  items : List OrderItem
  supplier : String
  amount : Option Int := none
  invoiceUrl : Option String := none
  paymentMethod : Option PaymentMethod := none
  contactPerson : Option String := none
  notes : Option String := none
  isReceived : Option Bool := none
  isPaid : Option Bool := none
  completedAt : Nat
  createdAt : Nat
  updatedAt : Option Nat := none
deriving DecidableEq, Repr

/-- Domain model: `CurrentOrderMetadata` (src/unnamed/part_000). -/
structure CurrentOrderMetadata where
  paymentMethod : Option PaymentMethod := none
  store : Option String := none
deriving DecidableEq, Repr

/-- The in-memory application state held by `AppProvider`
(AppContext.tsx, lines 45-52): the six `useState` collections. -/
structure AppState where
  items : List Item
  suppliers : List Supplier
  currentOrder : List OrderItem
  currentOrderMetadata : CurrentOrderMetadata
  completedOrders : List CompletedOrder
  pendingOrders : List PendingOrder
deriving DecidableEq, Repr

/-- The cart uniqueness key test used by `addToOrder`, `updateOrderItem`
and `removeFromOrder` (AppContext.tsx, lines 162, 165, 176, 181):
`oi.item.id === itemId && oi.storeTag === storeTag`. -/
def orderKeyMatch (itemId : String) (storeTag : Option String)
    (oi : OrderItem) : Bool :=
  decide (oi.item.id = itemId ∧ oi.storeTag = storeTag)

/-- `addToOrder(item, quantity, storeTag?)` (AppContext.tsx, lines
160-172): if a cart line with the same (item id, store tag) key exists,
bump every matching line's quantity, else append a fresh line. -/
def addToOrder (s : AppState) (item : Item) (quantity : Int)
    (storeTag : Option String) : AppState :=
  let prev := s.currentOrder
  let next :=
    if prev.any (orderKeyMatch item.id storeTag) then
      prev.map fun oi =>
        if orderKeyMatch item.id storeTag oi then
          { oi with quantity := oi.quantity + quantity }
        else oi
    else
      prev ++ [{ item := item, quantity := quantity, storeTag := storeTag }]
  { s with currentOrder := next }

/-- `updateOrderItem(itemId, quantity, storeTag?)` (AppContext.tsx, lines
174-178): replace the quantity of every line matching the key. -/
def updateOrderItem (s : AppState) (itemId : String) (quantity : Int)
    (storeTag : Option String) : AppState :=
  { s with currentOrder := s.currentOrder.map fun oi =>
      if orderKeyMatch itemId storeTag oi then { oi with quantity := quantity }
      else oi }

/-- `removeFromOrder(itemId, storeTag?)` (AppContext.tsx, lines 180-182). -/
def removeFromOrder (s : AppState) (itemId : String)
    (storeTag : Option String) : AppState :=
  { s with currentOrder :=
      s.currentOrder.filter fun oi => !(orderKeyMatch itemId storeTag oi) }

/-- `clearOrder()` (AppContext.tsx, lines 188-191): empty the cart and
reset the metadata record to the default payment method. -/
def clearOrder (s : AppState) : AppState :=
  { s with currentOrder := [],
           currentOrderMetadata :=
             { paymentMethod := some .cashOnDelivery, store := none } }

/-- `completeOrder()` (AppContext.tsx, lines 193-209). `freshId` models
`nanoid()` and `now` models `new Date()`. The computed `storeTags` set is
dead code in the source (never stored) and is omitted. -/
def completeOrder (s : AppState) (freshId : String) (now : Nat) : AppState :=
  match s.currentOrder with
  | [] => s
  | hd :: _ =>
    let co : CompletedOrder :=
      { id := freshId
        items := s.currentOrder
        supplier := hd.item.supplier
        completedAt := now
        createdAt := now }
    { s with completedOrders := s.completedOrders ++ [co],
             currentOrder := [],
             currentOrderMetadata :=
               { paymentMethod := some .cashOnDelivery, store := none } }

/-- `deleteItem(id)` (AppContext.tsx, lines 135-138): remove the item from
the in-memory collection and fire the remote delete.  `remoteError` models
the (asynchronous) outcome of `SupabaseSync.deleteItem`, whose rejection is
swallowed by `.catch(console.error)`: it does not influence the state. -/
def deleteItem (s : AppState) (id : String)
    (_remoteError : Option String) : AppState :=
  { s with items := s.items.filter fun item => decide (item.id ≠ id) }

/-- `SupabaseSync.deleteItem(itemId)` (src/unnamed/part_001, lines
256-263), modelled on the remote items table: the remote either reports an
error — which the adapter re-throws (`if (error) throw error`) — or deletes
the row with the given id.  The adapter method neither receives nor returns
any in-memory `AppState`. -/
def SupabaseSync.deleteItemRemote (table : List Item)
    (remoteError : Option String) (itemId : String) :
    Except String (List Item) :=
  match remoteError with
  | some e => .error e
  | none => .ok (table.filter fun row => decide (row.id ≠ itemId))

/-- The draft argument of `addPendingOrder`:
`Omit<PendingOrder, 'id' | 'createdAt' | 'updatedAt'>`. -/
structure PendingOrderDraft where
  supplier : String
  items : List PendingOrderItem
  status : Option String := none
  storeTag : Option String := none
  paymentMethod : Option PaymentMethod := none
  contactPerson : Option String := none
  notes : Option String := none
  invoiceUrl : Option String := none
  amount : Option Int := none
  isReceived : Option Bool := none
  isPaid : Option Bool := none
  completedAt : Option Nat := none
deriving DecidableEq, Repr

/-- `Partial<PendingOrder>`: every field optionally overridden (a present
field carries the full new value, including `none` for an explicit null). -/
structure PendingOrderPatch where
  id : Option String := none
  supplier : Option String := none
  items : Option (List PendingOrderItem) := none
  status : Option (Option String) := none
  storeTag : Option (Option String) := none
  paymentMethod : Option (Option PaymentMethod) := none
  contactPerson : Option (Option String) := none
  notes : Option (Option String) := none
  invoiceUrl : Option (Option String) := none
  amount : Option (Option Int) := none
  isReceived : Option (Option Bool) := none
  isPaid : Option (Option Bool) := none
  completedAt : Option (Option Nat) := none
  createdAt : Option Nat := none
  updatedAt : Option Nat := none
deriving DecidableEq, Repr

/-- The spread `\x7b ...order, ...orderUpdate, updatedAt: new Date() \x7d`
of `updatePendingOrder` (AppContext.tsx, line 259): present patch fields
override, and `updatedAt` is always stamped with the current time. -/
def applyPendingPatch (o : PendingOrder) (p : PendingOrderPatch)
    (now : Nat) : PendingOrder :=
  { id := p.id.getD o.id
    supplier := p.supplier.getD o.supplier
    items := p.items.getD o.items
    status := p.status.getD o.status
    storeTag := p.storeTag.getD o.storeTag
    paymentMethod := p.paymentMethod.getD o.paymentMethod
    contactPerson := p.contactPerson.getD o.contactPerson
    notes := p.notes.getD o.notes
    invoiceUrl := p.invoiceUrl.getD o.invoiceUrl
    amount := p.amount.getD o.amount
    isReceived := p.isReceived.getD o.isReceived
    isPaid := p.isPaid.getD o.isPaid
    completedAt := p.completedAt.getD o.completedAt
    createdAt := p.createdAt.getD o.createdAt
    updatedAt := some now }

/-- `updatePendingOrder(id, orderUpdate)` (AppContext.tsx, lines 256-262). -/
def updatePendingOrder (s : AppState) (id : String) (p : PendingOrderPatch)
    (now : Nat) : AppState :=
  { s with pendingOrders := s.pendingOrders.map fun order =>
      if order.id = id then applyPendingPatch order p now else order }

/-- The open-order search predicate of `addPendingOrder` (AppContext.tsx,
lines 213-218): same supplier, same store tag, status `pending` or
`processing`. -/
def openOrderMatch (d : PendingOrderDraft) (po : PendingOrder) : Bool :=
  decide (po.supplier = d.supplier ∧ po.storeTag = d.storeTag ∧
    (po.status = some "pending" ∨ po.status = some "processing"))

/-- One step of the item-line merge of `addPendingOrder` (AppContext.tsx,
lines 223-236): bump the quantity of the first line with the same item id,
or append the new line at the end. -/
def bumpLine (n : PendingOrderItem) :
    List PendingOrderItem → List PendingOrderItem
  | [] => [n]
  | mi :: rest =>
    if mi.item.id = n.item.id then
      { mi with quantity := mi.quantity + n.quantity } :: rest
    else
      mi :: bumpLine n rest

/-- The full item-line merge of `addPendingOrder`: fold every draft line
into the existing order's lines. -/
def mergeOrderItems (existing newItems : List PendingOrderItem) :
    List PendingOrderItem :=
  newItems.foldl (fun acc n => bumpLine n acc) existing

/-- The fresh order built by the not-found branch of `addPendingOrder`
(AppContext.tsx, lines 245-250): the draft's fields with a fresh id and
fresh creation/update timestamps. -/
def newPendingOrder (d : PendingOrderDraft) (freshId : String)
    (now : Nat) : PendingOrder :=
  { supplier := d.supplier
    items := d.items
    status := d.status
    storeTag := d.storeTag
    paymentMethod := d.paymentMethod
    contactPerson := d.contactPerson
    notes := d.notes
    invoiceUrl := d.invoiceUrl
    amount := d.amount
    isReceived := d.isReceived
    isPaid := d.isPaid
    completedAt := d.completedAt
    id := freshId
    createdAt := now
    updatedAt := some now }

/-- `addPendingOrder(order)` (AppContext.tsx, lines 212-254).  Returns the
new state together with the returned order id.  `freshId` models
`nanoid()` and `now` models `new Date()`. -/
def addPendingOrder (s : AppState) (d : PendingOrderDraft)
    (freshId : String) (now : Nat) : AppState × String :=
  match s.pendingOrders.find? (openOrderMatch d) with
  | some existingOrder =>
    let mergedItems := mergeOrderItems existingOrder.items d.items
    (updatePendingOrder s existingOrder.id
      { items := some mergedItems, updatedAt := some now } now,
     existingOrder.id)
  | none =>
    ({ s with pendingOrders :=
        s.pendingOrders ++ [newPendingOrder d freshId now] }, freshId)

/-- The import/export payload: a JS object that may carry any of the
collections.  `StorageData` in src/unnamed/part_001 declares the four
persisted collections optional; `exportData` additionally emits the cart
and its metadata, which `importData` ignores.  An absent field is `none`;
a present field is `some` (a present empty array is truthy in JS and does
overwrite). -/
structure StorageData where
  items : Option (List Item) := none
  suppliers : Option (List Supplier) := none
  completedOrders : Option (List CompletedOrder) := none
  pendingOrders : Option (List PendingOrder) := none
  currentOrder : Option (List OrderItem) := none
  currentOrderMetadata : Option CurrentOrderMetadata := none
deriving DecidableEq, Repr

/-- `exportData()` (AppContext.tsx, lines 270-279): a snapshot with all six
fields present. -/
def exportData (s : AppState) : StorageData :=
  { items := some s.items
    suppliers := some s.suppliers
    completedOrders := some s.completedOrders
    pendingOrders := some s.pendingOrders
    currentOrder := some s.currentOrder
    currentOrderMetadata := some s.currentOrderMetadata }

/-- `importData(data)` (AppContext.tsx, lines 281-286): overwrite each of
the four persisted collections when the field is present; the cart and its
metadata are never touched. -/
def importData (s : AppState) (data : StorageData) : AppState :=
  { s with
    items := data.items.getD s.items
    suppliers := data.suppliers.getD s.suppliers
    completedOrders := data.completedOrders.getD s.completedOrders
    pendingOrders := data.pendingOrders.getD s.pendingOrders }

/-- The four background-sync operation categories of `SupabaseSync`
(src/unnamed/part_001): `syncItems`, `syncSuppliers`, `syncPendingOrders`,
`syncCurrentOrder`. -/
inductive SyncCategory where
  | items
  | suppliers
  | pendingOrders
  | currentOrder
deriving DecidableEq, Repr

/-- The adapter's guard state: the single static field
`SupabaseSync.syncInProgress` (src/unnamed/part_001, line 31), shared by
all four sync methods. -/
structure SyncState where
  syncInProgress : Bool
deriving DecidableEq, Repr

/-- Whether a sync invocation proceeded past the guard or returned
immediately. -/
inductive SyncOutcome where
  | started
  | dropped
deriving DecidableEq, Repr

/-- The guard prologue shared by every sync method (src/unnamed/part_001,
e.g. lines 34-35 and 83-84): `if (this.syncInProgress) return;
this.syncInProgress = true`.  The category argument is ignored because each
method tests and sets the one shared static flag. -/
def syncEnter (_c : SyncCategory) (st : SyncState) :
    SyncState × SyncOutcome :=
  if st.syncInProgress then (st, .dropped)
  else ({ syncInProgress := true }, .started)

/-- The `finally` epilogue of every sync method: reset the shared flag. -/
def syncExit (_c : SyncCategory) (_st : SyncState) : SyncState :=
  { syncInProgress := false }

/-! Concrete fixtures used by witnesses and counterexamples. -/

/-- A sample item. -/
def itemA : Item := { id := "apple", name := "Apple", supplier := "FruitCo" }

/-- A second sample item. -/
def itemB : Item := { id := "banana", name := "Banana", supplier := "FruitCo" }

/-- The empty application state with the default cart metadata
(AppContext.tsx, lines 45-52). -/
def state0 : AppState :=
  { items := []
    suppliers := []
    currentOrder := []
    currentOrderMetadata := { paymentMethod := some .cashOnDelivery }
    completedOrders := []
    pendingOrders := [] }

/-- A state whose cart holds one line: 3 apples for store `wb`. -/
def stateCart : AppState :=
  { state0 with currentOrder :=
      [{ item := itemA, quantity := 3, storeTag := some "wb" }] }

/-! Theorems. -/

/-- C10: `importData` never modifies the cart: `currentOrder` and
`currentOrderMetadata` are left exactly as they were, for every input —
even though `exportData` includes both fields in its snapshot. -/
theorem importData_never_touches_cart (s : AppState) (d : StorageData) :
    (importData s d).currentOrder = s.currentOrder ∧
    (importData s d).currentOrderMetadata = s.currentOrderMetadata ∧
    (exportData s).currentOrder = some s.currentOrder ∧
    (exportData s).currentOrderMetadata = some s.currentOrderMetadata :=
  ⟨rfl, rfl, rfl, rfl⟩

/-- C2 counterexample: exporting a state whose cart is non-empty and
importing it into the empty state does not restore the cart, so the
round-trip does not reproduce all five collections across states. -/
theorem importExport_cart_not_restored :
    (importData state0 (exportData stateCart)).currentOrder ≠
      stateCart.currentOrder := by
  decide

/-- C2 (amended): `importData (exportData s)` applied to the same state `s`
reproduces `s` exactly; applied to any other state `t` it restores the
items, suppliers, completed orders and pending orders of `s`, while the
cart and its metadata remain those of `t`. -/
theorem importData_exportData_roundtrip (s t : AppState) :
    importData t (exportData s) =
      { t with items := s.items, suppliers := s.suppliers,
               completedOrders := s.completedOrders,
               pendingOrders := s.pendingOrders } ∧
    importData s (exportData s) = s :=
  ⟨rfl, rfl⟩

/-- C5: `importData` overwrites a collection exactly when the
corresponding field is present in the input; in particular an input
carrying only `items` leaves suppliers, pending orders and completed
orders untouched. -/
theorem importData_presence_frame (s : AppState) (d : StorageData)
    (itemsIn : List Item) :
    ((importData s { items := some itemsIn }).suppliers = s.suppliers ∧
     (importData s { items := some itemsIn }).pendingOrders =
        s.pendingOrders ∧
     (importData s { items := some itemsIn }).completedOrders =
        s.completedOrders ∧
     (importData s { items := some itemsIn }).items = itemsIn) ∧
    (d.items = none → (importData s d).items = s.items) ∧
    (d.suppliers = none → (importData s d).suppliers = s.suppliers) ∧
    (d.completedOrders = none →
       (importData s d).completedOrders = s.completedOrders) ∧
    (d.pendingOrders = none →
       (importData s d).pendingOrders = s.pendingOrders) ∧
    (∀ l, d.items = some l → (importData s d).items = l) ∧
    (∀ l, d.suppliers = some l → (importData s d).suppliers = l) ∧
    (∀ l, d.completedOrders = some l →
       (importData s d).completedOrders = l) ∧
    (∀ l, d.pendingOrders = some l → (importData s d).pendingOrders = l) := by
  refine ⟨⟨rfl, rfl, rfl, rfl⟩, ?_, ?_, ?_, ?_, ?_, ?_, ?_, ?_⟩ <;>
    first
      | (intro h; simp [importData, h])
      | (intro l h; simp [importData, h])

/-- C5 witness: applying the frame theorem to the empty state and an input
whose only present field is `suppliers`. -/
theorem importData_presence_frame_witness :
    (importData state0 { suppliers := some [] }).items = state0.items ∧
    (importData state0
        { suppliers := some [{ id := "s1", name := "FruitCo" }] }).suppliers =
      [{ id := "s1", name := "FruitCo" }] := by
  constructor
  · exact (importData_presence_frame state0 { suppliers := some [] } []).2.1 rfl
  · exact (importData_presence_frame state0
      { suppliers := some [{ id := "s1", name := "FruitCo" }] }
      []).2.2.2.2.2.2.1 [{ id := "s1", name := "FruitCo" }] rfl

/-- C6: with an empty cart `completeOrder` is a no-op on the whole state;
in particular it is a no-op immediately after `clearOrder`. -/
theorem completeOrder_empty_noop (s : AppState) (freshId : String)
    (now : Nat) :
    (s.currentOrder = [] → completeOrder s freshId now = s) ∧
    completeOrder (clearOrder s) freshId now = clearOrder s := by
  constructor
  · intro h
    unfold completeOrder
    rw [h]
  · rfl

/-- C6 witness: the empty state has an empty cart and `completeOrder`
leaves it unchanged. -/
theorem completeOrder_empty_noop_witness :
    completeOrder state0 "cid" 7 = state0 :=
  (completeOrder_empty_noop state0 "cid" 7).1 rfl

/-- C7: `deleteItem` removes the item from the in-memory collection
unconditionally — the result does not depend on the remote outcome and no
other collection changes — while the remote adapter operation works on the
remote table only and propagates its error. -/
theorem deleteItem_local_first (s : AppState) (id : String) (e : String)
    (table : List Item) :
    (deleteItem s id (some e)).items =
      s.items.filter (fun item => decide (item.id ≠ id)) ∧
    deleteItem s id (some e) = deleteItem s id none ∧
    (∀ it ∈ (deleteItem s id (some e)).items, it.id ≠ id) ∧
    (∀ it ∈ s.items, it.id ≠ id → it ∈ (deleteItem s id (some e)).items) ∧
    (deleteItem s id (some e)).suppliers = s.suppliers ∧
    (deleteItem s id (some e)).currentOrder = s.currentOrder ∧
    (deleteItem s id (some e)).completedOrders = s.completedOrders ∧
    (deleteItem s id (some e)).pendingOrders = s.pendingOrders ∧
    SupabaseSync.deleteItemRemote table (some e) id = .error e ∧
    SupabaseSync.deleteItemRemote table none id =
      .ok (table.filter fun row => decide (row.id ≠ id)) := by
  refine ⟨rfl, rfl, ?_, ?_, rfl, rfl, rfl, rfl, rfl, rfl⟩
  · intro it hit
    simp [deleteItem, List.mem_filter] at hit
    exact hit.2
  · intro it hit hne
    simp [deleteItem, List.mem_filter]
    exact ⟨hit, hne⟩

/-- C9 counterexample: with an items sync in flight, a suppliers sync call
is silently dropped — the guard is one shared flag, not per-category, so an
in-flight sync of one category does drop calls for a different category. -/
theorem syncGuard_cross_category_drop :
    (syncEnter .suppliers
        (syncEnter .items { syncInProgress := false }).1).2 =
      .dropped := by
  decide

/-- C9 (amended): all four sync categories share the single
`syncInProgress` guard: from an idle guard any category's call starts and
sets the shared flag; while the flag is set, a call of any category — the
same or a different one — is silently dropped with the state unchanged;
the epilogue of any category resets the shared flag. -/
theorem syncGuard_shared (c c' : SyncCategory) (st : SyncState) :
    (st.syncInProgress = false →
       syncEnter c st = ({ syncInProgress := true }, .started)) ∧
    (st.syncInProgress = true →
       syncEnter c' st = (st, .dropped)) ∧
    syncExit c st = { syncInProgress := false } := by
  refine ⟨?_, ?_, rfl⟩ <;> (intro h; simp [syncEnter, h])

/-- C9 witness: starting from idle, an items sync starts; with the flag
set, a pending-orders sync call is dropped. -/
theorem syncGuard_shared_witness :
    syncEnter .items { syncInProgress := false } =
      ({ syncInProgress := true }, .started) ∧
    syncEnter .pendingOrders { syncInProgress := true } =
      ({ syncInProgress := true }, .dropped) :=
  ⟨(syncGuard_shared .items .items { syncInProgress := false }).1 rfl,
   (syncGuard_shared .items .pendingOrders { syncInProgress := true }).2.1 rfl⟩

/-- C4: on a non-empty cart, `completeOrder` appends exactly one new
completed order — carrying the cart lines and the supplier of the first
line's item — empties the cart, resets the metadata payment method to CASH
ON DELIVERY, and leaves items, suppliers and pending orders unchanged. -/
theorem completeOrder_nonempty (s : AppState) (fid : String) (now : Nat)
    (hd : OrderItem) (tl : List OrderItem) (h : s.currentOrder = hd :: tl) :
    (completeOrder s fid now).completedOrders =
      s.completedOrders ++
        [{ id := fid, items := hd :: tl, supplier := hd.item.supplier,
           completedAt := now, createdAt := now }] ∧
    (completeOrder s fid now).completedOrders.length =
      s.completedOrders.length + 1 ∧
    (completeOrder s fid now).currentOrder = [] ∧
    (completeOrder s fid now).currentOrderMetadata.paymentMethod =
      some .cashOnDelivery ∧
    (completeOrder s fid now).items = s.items ∧
    (completeOrder s fid now).suppliers = s.suppliers ∧
    (completeOrder s fid now).pendingOrders = s.pendingOrders := by
  unfold completeOrder
  rw [h]
  exact ⟨rfl, by simp, rfl, rfl, rfl, rfl, rfl⟩

/-- C4 witness: completing the one-line fixture cart appends one completed
order with the first line's supplier and empties the cart. -/
theorem completeOrder_nonempty_witness :
    (completeOrder stateCart "cid" 9).completedOrders.length =
      stateCart.completedOrders.length + 1 ∧
    (completeOrder stateCart "cid" 9).currentOrder = [] ∧
    (completeOrder stateCart "cid" 9).completedOrders =
      [{ id := "cid",
         items := [{ item := itemA, quantity := 3, storeTag := some "wb" }],
         supplier := "FruitCo", completedAt := 9, createdAt := 9 }] := by
  have h := completeOrder_nonempty stateCart "cid" 9
    { item := itemA, quantity := 3, storeTag := some "wb" } [] rfl
  exact ⟨h.2.1, h.2.2.1, h.1.trans (by decide)⟩

/-- Helper: the quantity-bump map of `addToOrder` leaves a list alone when
no element matches the cart key. -/
theorem bump_map_no_match (itemId : String) (tag : Option String) (q : Int)
    (l : List OrderItem) (h : ∀ oi ∈ l, orderKeyMatch itemId tag oi = false) :
    (l.map fun oi =>
        if orderKeyMatch itemId tag oi then
          { oi with quantity := oi.quantity + q }
        else oi) = l := by
  induction l with
  | nil => rfl
  | cons x xs ih =>
    have hx := h x (by simp)
    have hxs := ih fun oi hoi => h oi (by simp [hoi])
    simp [hx, hxs]

/-- Helper: filtering by the cart key drops every non-matching line. -/
theorem filter_no_match_nil (p : OrderItem → Bool) (l : List OrderItem)
    (h : ∀ oi ∈ l, p oi = false) : l.filter p = [] := by
  induction l with
  | nil => rfl
  | cons x xs ih =>
    rw [List.filter_cons_of_neg (by simp [h x (by simp)])]
    exact ih fun oi hoi => h oi (by simp [hoi])

/-- Helper: a list with no line matching the cart key has `any` false. -/
theorem any_no_match_false (p : OrderItem → Bool) (l : List OrderItem)
    (h : ∀ oi ∈ l, p oi = false) : l.any p = false := by
  rw [Bool.eq_false_iff]
  intro hc
  obtain ⟨x, hx, hpx⟩ := List.any_eq_true.1 hc
  rw [h x hx] at hpx
  simp at hpx

/-- Helper: the cart produced by `addToOrder`, written as an explicit
conditional (unfolding the definition once). -/
theorem addToOrder_currentOrder_eq (s : AppState) (item : Item) (q : Int)
    (tag : Option String) :
    (addToOrder s item q tag).currentOrder =
      if s.currentOrder.any (orderKeyMatch item.id tag) then
        s.currentOrder.map fun oi =>
          if orderKeyMatch item.id tag oi then
            { oi with quantity := oi.quantity + q }
          else oi
      else
        s.currentOrder ++ [{ item := item, quantity := q, storeTag := tag }] :=
  rfl

/-- C8 counterexample: the public interface accepts a non-positive
quantity, and `addToOrder` with quantity 0 creates a cart line whose
quantity is not positive. -/
theorem cart_positivity_broken_by_zero_add :
    ¬ (∀ oi ∈ (addToOrder state0 itemA 0 none).currentOrder,
          0 < oi.quantity) := by
  decide

/-- C8 (amended): the cart mutations preserve line positivity when the
quantity argument supplied is itself positive: from a cart of positive
lines, `addToOrder` and `updateOrderItem` with a positive quantity yield
carts of positive lines. -/
theorem cart_positivity_preserved (s : AppState) (item : Item) (q : Int)
    (itemId : String) (tag : Option String) (hq : 0 < q)
    (hinv : ∀ oi ∈ s.currentOrder, 0 < oi.quantity) :
    (∀ oi ∈ (addToOrder s item q tag).currentOrder, 0 < oi.quantity) ∧
    (∀ oi ∈ (updateOrderItem s itemId q tag).currentOrder,
        0 < oi.quantity) := by
  constructor
  · intro oi hoi
    simp only [addToOrder] at hoi
    split at hoi
    · obtain ⟨oi₀, hmem, heq⟩ := List.mem_map.1 hoi
      split at heq
      · rw [← heq]
        exact add_pos (hinv oi₀ hmem) hq
      · rw [← heq]
        exact hinv oi₀ hmem
    · rcases List.mem_append.1 hoi with hold | hnew
      · exact hinv oi hold
      · rw [List.mem_singleton.1 hnew]
        exact hq
  · intro oi hoi
    obtain ⟨oi₀, hmem, heq⟩ := List.mem_map.1 hoi
    split at heq
    · rw [← heq]
      exact hq
    · rw [← heq]
      exact hinv oi₀ hmem

/-- C8 witness: adding quantity 2 to the fixture cart (one line of
quantity 3) keeps every line positive. -/
theorem cart_positivity_preserved_witness :
    (0 : Int) < 2 ∧
    ∀ oi ∈ (addToOrder stateCart itemA 2 (some "wb")).currentOrder,
      0 < oi.quantity :=
  ⟨by decide,
   (cart_positivity_preserved stateCart itemA 2 "apple" (some "wb")
      (by decide) (by decide)).1⟩

/-- C3 counterexample: on a cart already holding the (apple, wb) line with
quantity 3, adding 3 and then 2 yields one line of quantity 8, and no line
has quantity 3 + 2 — the resulting quantity is not the sum of the two
added quantities alone. -/
theorem addToOrder_twice_prior_line :
    (addToOrder (addToOrder stateCart itemA 3 (some "wb")) itemA 2
        (some "wb")).currentOrder =
      [{ item := itemA, quantity := 8, storeTag := some "wb" }] ∧
    ∀ oi ∈ (addToOrder (addToOrder stateCart itemA 3 (some "wb")) itemA 2
        (some "wb")).currentOrder, oi.quantity ≠ 3 + 2 := by
  decide

/-- C3 (amended): when the (item id, store tag) key is absent from the
cart, one `addToOrder` call appends exactly one new line, and a second
call with the same key leaves exactly one line for the key, carrying the
sum of the two added quantities, never a second line. -/
theorem addToOrder_absent_key (s : AppState) (item : Item) (q₁ q₂ : Int)
    (tag : Option String)
    (habs : ∀ oi ∈ s.currentOrder,
        ¬(oi.item.id = item.id ∧ oi.storeTag = tag)) :
    (addToOrder s item q₁ tag).currentOrder =
      s.currentOrder ++ [{ item := item, quantity := q₁, storeTag := tag }] ∧
    (addToOrder (addToOrder s item q₁ tag) item q₂ tag).currentOrder =
      s.currentOrder ++
        [{ item := item, quantity := q₁ + q₂, storeTag := tag }] ∧
    ((addToOrder (addToOrder s item q₁ tag) item q₂ tag).currentOrder.filter
        (orderKeyMatch item.id tag)).length = 1 := by
  have habs' : ∀ oi ∈ s.currentOrder,
      orderKeyMatch item.id tag oi = false := by
    intro oi hoi
    simp only [orderKeyMatch, decide_eq_false_iff_not]
    exact habs oi hoi
  have hany : s.currentOrder.any (orderKeyMatch item.id tag) = false :=
    any_no_match_false _ _ habs'
  have hmatchQ : ∀ q : Int,
      orderKeyMatch item.id tag
        { item := item, quantity := q, storeTag := tag } = true := by
    intro q
    simp [orderKeyMatch]
  have h₁ : (addToOrder s item q₁ tag).currentOrder =
      s.currentOrder ++
        [{ item := item, quantity := q₁, storeTag := tag }] := by
    simp [addToOrder, hany]
  have h₂ : (addToOrder (addToOrder s item q₁ tag) item q₂ tag).currentOrder =
      s.currentOrder ++
        [{ item := item, quantity := q₁ + q₂, storeTag := tag }] := by
    rw [addToOrder_currentOrder_eq (addToOrder s item q₁ tag) item q₂ tag, h₁]
    rw [if_pos (by rw [List.any_append]; simp [hmatchQ q₁])]
    rw [List.map_append, bump_map_no_match item.id tag q₂ _ habs']
    simp [hmatchQ q₁]
  refine ⟨h₁, h₂, ?_⟩
  rw [h₂, List.filter_append, filter_no_match_nil _ _ habs']
  simp [hmatchQ (q₁ + q₂)]

/-- C3 witness: on the empty cart, adding (apple, 3, wb) and then
(apple, 2, wb) yields the single line (apple, 5, wb). -/
theorem addToOrder_absent_key_witness :
    (addToOrder (addToOrder state0 itemA 3 (some "wb")) itemA 2
        (some "wb")).currentOrder =
      [{ item := itemA, quantity := 5, storeTag := some "wb" }] := by
  have h := addToOrder_absent_key state0 itemA 3 2 (some "wb")
    (by intro oi hoi; simp [state0] at hoi)
  exact h.2.1.trans (by decide)

/-- Total quantity carried by the lines of a given item id. -/
def lineQty (ls : List PendingOrderItem) (iid : String) : Int :=
  (ls.map fun l => if l.item.id = iid then l.quantity else 0).sum

/-- Helper: `lineQty` over a cons. -/
theorem lineQty_cons (x : PendingOrderItem) (xs : List PendingOrderItem)
    (iid : String) :
    lineQty (x :: xs) iid =
      (if x.item.id = iid then x.quantity else 0) + lineQty xs iid := by
  simp [lineQty]

/-- Helper: one merge step adds exactly the new line's quantity to its item
id and nothing to any other id. -/
theorem lineQty_bumpLine (n : PendingOrderItem)
    (acc : List PendingOrderItem) (iid : String) :
    lineQty (bumpLine n acc) iid =
      lineQty acc iid + (if n.item.id = iid then n.quantity else 0) := by
  induction acc with
  | nil => simp [bumpLine, lineQty]
  | cons mi rest ih =>
    by_cases h : mi.item.id = n.item.id
    · rw [show bumpLine n (mi :: rest) =
          { mi with quantity := mi.quantity + n.quantity } :: rest from by
            simp [bumpLine, h]]
      rw [lineQty_cons, lineQty_cons]
      have hid : ({ mi with quantity := mi.quantity + n.quantity } :
          PendingOrderItem).item.id = mi.item.id := rfl
      rw [hid, ← h]
      split_ifs <;> ring
    · rw [show bumpLine n (mi :: rest) = mi :: bumpLine n rest from by
          simp [bumpLine, h]]
      rw [lineQty_cons, lineQty_cons, ih]
      ring

/-- Helper: the full merge is quantity-additive at every item id: for each
id, the merged lines carry the existing quantity plus the draft quantity. -/
theorem lineQty_merge (old news : List PendingOrderItem) (iid : String) :
    lineQty (mergeOrderItems old news) iid =
      lineQty old iid + lineQty news iid := by
  induction news generalizing old with
  | nil => simp [mergeOrderItems, lineQty]
  | cons n rest ih =>
    rw [show mergeOrderItems old (n :: rest) =
        mergeOrderItems (bumpLine n old) rest from rfl]
    rw [ih, lineQty_bumpLine, lineQty_cons]
    ring

/-- C1: `addPendingOrder` merges into the first open order with the same
supplier and store tag when one exists — returning that order's id,
creating no new order, patching the matched order's lines to the merge
(which sums quantities per item id) and refreshing its update timestamp —
and otherwise appends a fresh order carrying the draft's fields with a
fresh id and fresh creation/update timestamps, returning the new id. -/
theorem addPendingOrder_spec (s : AppState) (d : PendingOrderDraft)
    (fid : String) (now : Nat) :
    (∀ po, s.pendingOrders.find? (openOrderMatch d) = some po →
       (addPendingOrder s d fid now).2 = po.id ∧
       (addPendingOrder s d fid now).1.pendingOrders =
         s.pendingOrders.map (fun o =>
           if o.id = po.id then
             { o with items := mergeOrderItems po.items d.items,
                      updatedAt := some now }
           else o) ∧
       (addPendingOrder s d fid now).1.pendingOrders.length =
         s.pendingOrders.length ∧
       (∀ iid, lineQty (mergeOrderItems po.items d.items) iid =
          lineQty po.items iid + lineQty d.items iid) ∧
       openOrderMatch d po = true) ∧
    (s.pendingOrders.find? (openOrderMatch d) = none →
       (addPendingOrder s d fid now).2 = fid ∧
       (addPendingOrder s d fid now).1.pendingOrders =
         s.pendingOrders ++ [newPendingOrder d fid now]) := by
  constructor
  · intro po hfind
    have hmap : (addPendingOrder s d fid now).1.pendingOrders =
        s.pendingOrders.map (fun o =>
          if o.id = po.id then
            { o with items := mergeOrderItems po.items d.items,
                     updatedAt := some now }
          else o) := by
      simp only [addPendingOrder, hfind]
      rfl
    refine ⟨?_, hmap, ?_, ?_, List.find?_some hfind⟩
    · simp only [addPendingOrder, hfind]
    · rw [hmap]
      exact List.length_map _ _
    · intro iid
      exact lineQty_merge po.items d.items iid
  · intro hfind
    constructor <;> simp only [addPendingOrder, hfind]

/-- A fixture open pending order: 2 apples for FruitCo at store `wb`,
status pending. -/
def poOpen : PendingOrder :=
  { id := "po1", supplier := "FruitCo",
    items := [{ item := itemA, quantity := 2 }],
    status := some "pending", storeTag := some "wb", createdAt := 1 }

/-- The empty state with the fixture open order. -/
def statePend : AppState := { state0 with pendingOrders := [poOpen] }

/-- A fixture draft for the same supplier and store tag. -/
def draft1 : PendingOrderDraft :=
  { supplier := "FruitCo",
    items := [{ item := itemA, quantity := 3 },
              { item := itemB, quantity := 4 }],
    status := some "pending", storeTag := some "wb" }

/-- C1 witness: against the fixture open order the draft merges — the
existing id comes back and no order is added — while against the empty
state the fresh id comes back. -/
theorem addPendingOrder_spec_witness :
    (addPendingOrder statePend draft1 "fresh" 5).2 = "po1" ∧
    (addPendingOrder statePend draft1 "fresh" 5).1.pendingOrders.length = 1 ∧
    (addPendingOrder state0 draft1 "fresh" 5).2 = "fresh" := by
  have h₁ := (addPendingOrder_spec statePend draft1 "fresh" 5).1 poOpen
    (by decide)
  have h₂ := (addPendingOrder_spec state0 draft1 "fresh" 5).2 (by decide)
  exact ⟨h₁.1, h₁.2.2.1.trans (by decide), h₂.1⟩

end Kali
